import Mathlib

/-!
Verification of the Walmart token lifecycle manager and token cipher of the
seller-walmart repository.

The subsystem under study consists of
- `EncryptionService` (AES-CBC token cipher; blob format is
  base64(iv16 ++ ciphertext), produced with the browser primitives
  `btoa`/`atob`, `TextEncoder`/`TextDecoder` and `crypto.subtle`), and
- `WalmartTokenService` (OAuth token acquisition, storage in the
  `walmart_tokens` table, expiry checks and refresh orchestration), together
  with the `walmart_tokens` migration whose triggers compute `expires_at`
  and `updated_at` on every insert/update.

Strings are modelled as lists of character codes (`List Nat`), timestamps as
integers in milliseconds (the unit of `Date.getTime()`), and the external
collaborators (the marketplace HTTP endpoint, the possibility of a store read
failure, the platform AES-CBC primitive and the UTF-8 text codec) as explicit
inputs of the operations that await them.
-/

namespace SellerWalmart

/-- Strings are modelled as lists of character codes. -/
abbrev Str : Type := List Nat

/-! ## Base64 (model of the platform `btoa` / `atob` used by EncryptionService) -/

/-- Character code of base64 digit `n` (0..63): `A`-`Z`, `a`-`z`, `0`-`9`, `+`, `/`. -/
def b64CharOfSextet (n : Nat) : Nat :=
  if n < 26 then 65 + n
  else if n < 52 then 97 + (n - 26)
  else if n < 62 then 48 + (n - 52)
  else if n = 62 then 43
  else 47

/-- Base64 digit value of character code `c` (inverse of `b64CharOfSextet`). -/
def b64SextetOfChar (c : Nat) : Nat :=
  if 65 ≤ c ∧ c ≤ 90 then c - 65
  else if 97 ≤ c ∧ c ≤ 122 then c - 97 + 26
  else if 48 ≤ c ∧ c ≤ 57 then c - 48 + 52
  else if c = 43 then 62
  else 63

/-- Model of `btoa` on a binary string, given as its list of byte values:
base64-encodes 3 bytes into 4 characters, padding with `=` (code 61). -/
def btoaBytes : List Nat → List Nat
  | [] => []
  | [a] => [b64CharOfSextet (a / 4), b64CharOfSextet (a % 4 * 16), 61, 61]
  | [a, b] => [b64CharOfSextet (a / 4), b64CharOfSextet (a % 4 * 16 + b / 16),
      b64CharOfSextet (b % 16 * 4), 61]
  | a :: b :: c :: rest =>
      b64CharOfSextet (a / 4) :: b64CharOfSextet (a % 4 * 16 + b / 16) ::
      b64CharOfSextet (b % 16 * 4 + c / 64) :: b64CharOfSextet (c % 64) :: btoaBytes rest

/-- Model of `atob`: base64-decodes 4 characters into 3 bytes, honouring the
`=` padding (code 61). -/
def atobBytes : List Nat → List Nat
  | c0 :: c1 :: c2 :: c3 :: rest =>
      if c2 = 61 then
        [b64SextetOfChar c0 * 4 + b64SextetOfChar c1 / 16]
      else if c3 = 61 then
        [b64SextetOfChar c0 * 4 + b64SextetOfChar c1 / 16,
         b64SextetOfChar c1 % 16 * 16 + b64SextetOfChar c2 / 4]
      else
        (b64SextetOfChar c0 * 4 + b64SextetOfChar c1 / 16) ::
        (b64SextetOfChar c1 % 16 * 16 + b64SextetOfChar c2 / 4) ::
        (b64SextetOfChar c2 % 4 * 64 + b64SextetOfChar c3) :: atobBytes rest
  | _ => []

/-! ## EncryptionService (token cipher)

`EncryptionService.encryptToken` generates a fresh 16-byte IV, UTF-8-encodes
the token with `TextEncoder`, encrypts with `crypto.subtle` under the fixed
AES key, and returns `arrayBufferToBase64(iv ++ ciphertext)`;
`decryptToken` base64-decodes, splits the first 16 bytes as IV, decrypts and
UTF-8-decodes. The platform AES-CBC primitive and the UTF-8 text codec are
external collaborators (`crypto.subtle`, `TextEncoder`/`TextDecoder`), so they
are passed in explicitly; the IV, produced by `crypto.getRandomValues(new
Uint8Array(16))`, is passed as an arbitrary 16-byte input. -/

/-- Character codes of the fixed key string
9T6KjI/mL0BJmPlG03PKpyMyiSZ4fMlRBO8m+w6y7ug= assigned to
EncryptionService.AES_KEY. -/
def AES_KEY : Str :=
  [57, 84, 54, 75, 106, 73, 47, 109, 76, 48, 66, 74, 109, 80, 108, 71, 48, 51,
   80, 75, 112, 121, 77, 121, 105, 83, 90, 52, 102, 77, 108, 82, 66, 79, 56,
   109, 43, 119, 54, 121, 55, 117, 103, 61]

/-- Model of `EncryptionService.base64ToArrayBuffer`: `atob` followed by the
`charCodeAt` loop, which on a binary string is exactly the byte list the
decoder produced. -/
def base64ToArrayBuffer (base64 : Str) : List Nat := atobBytes base64

/-- Model of `EncryptionService.arrayBufferToBase64`: the `fromCharCode` loop
followed by `btoa`. -/
def arrayBufferToBase64 (buffer : List Nat) : Str := btoaBytes buffer

/-- The platform `crypto.subtle` AES-CBC primitive, external to the repository:
`encrypt key iv data` and `decrypt key iv cipher` (decryption can fail on a
padding error, hence `Option`). -/
structure SubtleAesCbc where
  encrypt : List Nat → List Nat → List Nat → List Nat
  decrypt : List Nat → List Nat → List Nat → Option (List Nat)

/-- Model of `EncryptionService.encryptToken`: encode the token, encrypt it
under the fixed key with the supplied IV, and base64-encode `iv ++ ciphertext`. -/
def encryptToken (sc : SubtleAesCbc) (textEncode : Str → List Nat)
    (iv : List Nat) (token : Str) : Str :=
  let key := base64ToArrayBuffer AES_KEY
  let data := textEncode token
  let encrypted := sc.encrypt key iv data
  arrayBufferToBase64 (iv ++ encrypted)

/-- Model of `EncryptionService.decryptToken`: base64-decode, split the first
16 bytes as the IV and the remainder as the ciphertext, decrypt under the
fixed key and decode the plaintext bytes. -/
def decryptToken (sc : SubtleAesCbc) (textDecode : List Nat → Str)
    (encryptedToken : Str) : Option Str :=
  let key := base64ToArrayBuffer AES_KEY
  let fullCipher := base64ToArrayBuffer encryptedToken
  let iv := fullCipher.take 16
  let cipher := fullCipher.drop 16
  (sc.decrypt key iv cipher).map textDecode

/-! ## WalmartTokenService data model

Mirrors the interfaces in src/services/walmartTokenService.ts and the
`walmart_tokens` table of the operative migration (the one the repository's
MIGRATION_INSTRUCTIONS tell the operator to run), including its
`calculate_expires_at` and `update_updated_at_column` triggers. -/

/-- Mirror of the `WalmartTokenResponse` interface (marketplace token
endpoint success body). `expires_in` is in seconds. -/
structure WalmartTokenResponse where
  access_token : Str
  token_type : Str
  expires_in : Int
  refresh_token : Option Str := none
  scope : Option Str := none
deriving DecidableEq, Repr

/-- Mirror of the `WalmartTokenRecord` interface / `walmart_tokens` row.
Timestamps (`expires_at`, `created_at`, `updated_at`) are epoch milliseconds. -/
structure WalmartTokenRecord where
  id : Str
  user_id : Str
  access_token : Str
  refresh_token : Option Str
  token_type : Str
  expires_in : Int
  expires_at : Int
  scope : Option Str
  seller_id : Option Str
  created_at : Int
  updated_at : Int
deriving DecidableEq, Repr

/-- The `walmart_tokens` table contents (unique per `user_id` is maintained by
the upsert below, matching the table's UNIQUE(user_id) constraint). -/
abbrev WalmartTokensTable := List WalmartTokenRecord

/-- Row of the table matching `user_id` (model of
`select().eq(user_id, userId).single()`). -/
def lookupToken (table : WalmartTokensTable) (userId : Str) :
    Option WalmartTokenRecord :=
  table.find? fun r => decide (r.user_id = userId)

/-- The object literal `storeToken` passes to `upsert`: exactly the seven
fields of walmartTokenService.ts lines 124-132 — note that `expires_at` is
not among them. -/
structure UpsertPayload where
  user_id : Str
  access_token : Str
  refresh_token : Option Str
  token_type : Str
  expires_in : Int
  scope : Option Str
  seller_id : Option Str
deriving DecidableEq, Repr

/-- Model of the store's upsert on `walmart_tokens` keyed by the unique
`user_id`, with the migration's BEFORE INSERT OR UPDATE triggers applied:
`calculate_expires_at` sets `expires_at := now() + expires_in seconds`
(milliseconds in this model) on every write, and `update_updated_at_column`
maintains `updated_at`; `created_at` and `id` keep their defaults (`now()`,
`gen_random_uuid()` modelled by `freshId`) on insert and are preserved on
update. Returns the written row (the `.select().single()` result) and the new
table. -/
def upsertWalmartToken (table : WalmartTokensTable) (p : UpsertPayload)
    (now : Int) (freshId : Str) : WalmartTokenRecord × WalmartTokensTable :=
  match lookupToken table p.user_id with
  | some old =>
      let updated : WalmartTokenRecord :=
        { id := old.id, user_id := p.user_id, access_token := p.access_token,
          refresh_token := p.refresh_token, token_type := p.token_type,
          expires_in := p.expires_in, expires_at := now + p.expires_in * 1000,
          scope := p.scope, seller_id := p.seller_id,
          created_at := old.created_at, updated_at := now }
      (updated, table.map fun r => if r.user_id = p.user_id then updated else r)
  | none =>
      let inserted : WalmartTokenRecord :=
        { id := freshId, user_id := p.user_id, access_token := p.access_token,
          refresh_token := p.refresh_token, token_type := p.token_type,
          expires_in := p.expires_in, expires_at := now + p.expires_in * 1000,
          scope := p.scope, seller_id := p.seller_id,
          created_at := now, updated_at := now }
      (inserted, table ++ [inserted])

/-- Model of `WalmartTokenService.storeToken(userId, tokenData, sellerId?)`:
builds the upsert payload verbatim from the token response (no encryption
step appears in the source) and upserts it keyed by `userId`. -/
def storeToken (userId : Str) (tokenData : WalmartTokenResponse)
    (sellerId : Option Str) (now : Int) (freshId : Str)
    (table : WalmartTokensTable) : WalmartTokenRecord × WalmartTokensTable :=
  upsertWalmartToken table
    { user_id := userId, access_token := tokenData.access_token,
      refresh_token := tokenData.refresh_token,
      token_type := tokenData.token_type, expires_in := tokenData.expires_in,
      scope := tokenData.scope, seller_id := sellerId } now freshId

/-- Model of `WalmartTokenService.getStoredToken(userId)`: a store failure
(any error other than PGRST116 "no rows") propagates; "no rows" is the normal
absent result. The possibility of a store failure is an input (`storeError`). -/
def getStoredToken (userId : Str) (table : WalmartTokensTable)
    (storeError : Option Str) : Except Str (Option WalmartTokenRecord) :=
  match storeError with
  | some e => .error e
  | none => .ok (lookupToken table userId)

/-- Model of `WalmartTokenService.isTokenExpiring(token, bufferMinutes = 5)`:
true iff `expires_at - now ≤ bufferMinutes * 60 * 1000` milliseconds. -/
def isTokenExpiring (token : WalmartTokenRecord) (bufferMinutes : Int)
    (now : Int) : Bool :=
  decide (token.expires_at - now ≤ bufferMinutes * 60 * 1000)

/-- The distinct failures `getValidAccessToken` can raise, one per
`throw new Error(...)` message in the source:
`notConnectedError` = "No Walmart token found. Please connect to Walmart
first.", `noRefreshTokenError` = "Token expired and no refresh token
available. Please reconnect to Walmart.", `refreshFailedError` = "Token
expired and refresh failed. Please reconnect to Walmart.", and `storeError`
for a propagated store failure. -/
inductive TokenError where
  | notConnectedError
  | noRefreshTokenError
  | refreshFailedError
  | storeError (message : Str)
deriving DecidableEq, Repr

/-- The `{ token, isRefreshed }` result of `getValidAccessToken`. -/
structure AccessTokenResult where
  token : Str
  isRefreshed : Bool
deriving DecidableEq, Repr

/-- Model of `WalmartTokenService.getValidAccessToken(userId)`. The outcome
of the outbound `refreshAccessToken` network call is the input
`refreshResult`; a failing `refreshAccessToken` (or the catch around it)
becomes `refreshFailedError`. Returns the result together with the table
after any write. -/
def getValidAccessToken (userId : Str) (now : Int) (freshId : Str)
    (table : WalmartTokensTable) (storeError : Option Str)
    (refreshResult : Except Str WalmartTokenResponse) :
    Except TokenError (AccessTokenResult × WalmartTokensTable) :=
  match getStoredToken userId table storeError with
  | .error e => .error (.storeError e)
  | .ok none => .error .notConnectedError
  | .ok (some storedToken) =>
    if ¬ isTokenExpiring storedToken 5 now then
      .ok ({ token := storedToken.access_token, isRefreshed := false }, table)
    else
      match storedToken.refresh_token with
      | some _ =>
        match refreshResult with
        | .ok newTokenData =>
            let r := storeToken userId newTokenData storedToken.seller_id now
              freshId table
            .ok ({ token := r.1.access_token, isRefreshed := true }, r.2)
        | .error _ => .error .refreshFailedError
      | none => .error .noRefreshTokenError

/-- The result object of `getConnectionStatus`; absent optional fields of the
source's object literal are `none`. -/
structure ConnectionStatus where
  isConnected : Bool
  token : Option WalmartTokenRecord := none
  isExpiring : Option Bool := none
  needsRefresh : Option Bool := none
deriving DecidableEq, Repr

/-- Model of `WalmartTokenService.getConnectionStatus(userId)`: any error in
the try block (a failing store read) is caught and normalized to
`isConnected = false`; a present record is classified with the 60-minute and
5-minute buffers. The table is returned unchanged on every path. -/
def getConnectionStatus (userId : Str) (now : Int)
    (table : WalmartTokensTable) (storeError : Option Str) :
    ConnectionStatus × WalmartTokensTable :=
  match getStoredToken userId table storeError with
  | .error _ => ({ isConnected := false }, table)
  | .ok none => ({ isConnected := false }, table)
  | .ok (some token) =>
      ({ isConnected := true, token := some token,
         isExpiring := some (isTokenExpiring token 60 now),
         needsRefresh := some (isTokenExpiring token 5 now) }, table)

/-- The `{ isConnected, record?, wasRefreshed?, error? }` result of
`ensureValidConnection`. -/
structure EnsureConnectionResult where
  isConnected : Bool
  record : Option WalmartTokenRecord := none
  wasRefreshed : Option Bool := none
  error : Option Str := none
deriving DecidableEq, Repr

/-- Modelled from the spec: human-readable reconnect instruction used by
`ensureValidConnection` when an expiring record has no refresh token
(character codes of "Token expired and no refresh token available. Please
reconnect to Walmart."). -/
def noRefreshTokenMessage : Str :=
  [84, 111, 107, 101, 110, 32, 101, 120, 112, 105, 114, 101, 100, 32, 97, 110,
   100, 32, 110, 111, 32, 114, 101, 102, 114, 101, 115, 104, 32, 116, 111,
   107, 101, 110, 32, 97, 118, 97, 105, 108, 97, 98, 108, 101, 46, 32, 80,
   108, 101, 97, 115, 101, 32, 114, 101, 99, 111, 110, 110, 101, 99, 116, 32,
   116, 111, 32, 87, 97, 108, 109, 97, 114, 116, 46]

/-- Modelled from the spec: no `ensureValidConnection` operation exists under
src/ (the spec is its only description). Per the spec it is the composite of
`getConnectionStatus` and a conditional refresh, and on refresh failure it
returns `isConnected = false` with a human-readable error string rather than
throwing; it is a total function, so no exception can propagate. -/
def ensureValidConnection (userId : Str) (now : Int) (freshId : Str)
    (table : WalmartTokensTable) (storeError : Option Str)
    (refreshResult : Except Str WalmartTokenResponse) :
    EnsureConnectionResult × WalmartTokensTable :=
  let s := getConnectionStatus userId now table storeError
  match s.1.token with
  | none => ({ isConnected := false }, s.2)
  | some record =>
    if s.1.needsRefresh = some true then
      match record.refresh_token with
      | some _ =>
        match refreshResult with
        | .ok newTokenData =>
            let r := storeToken userId newTokenData record.seller_id now
              freshId s.2
            ({ isConnected := true, record := some r.1,
               wasRefreshed := some true }, r.2)
        | .error e => ({ isConnected := false, error := some e }, s.2)
      | none =>
          ({ isConnected := false, error := some noRefreshTokenMessage }, s.2)
    else
      ({ isConnected := true, record := some record,
         wasRefreshed := some false }, s.2)

/-! ## Theorems -/

theorem b64SextetOfChar_charOfSextet : ∀ n, n < 64 → b64SextetOfChar (b64CharOfSextet n) = n := by
  decide

theorem b64CharOfSextet_ne_pad : ∀ n, n < 64 → b64CharOfSextet n ≠ 61 := by
  decide

/-- Decoding inverts encoding on lists of bytes. -/
theorem atobBytes_btoaBytes : ∀ l : List Nat, (∀ x ∈ l, x < 256) →
    atobBytes (btoaBytes l) = l
  | [], _ => by simp [btoaBytes, atobBytes]
  | [a], h => by
    have ha : a < 256 := h a (by simp)
    have h1 : a / 4 < 64 := by omega
    have h2 : a % 4 * 16 < 64 := by omega
    simp only [btoaBytes, atobBytes, eq_self_iff_true, if_true,
      b64SextetOfChar_charOfSextet _ h1, b64SextetOfChar_charOfSextet _ h2,
      List.cons.injEq, and_true]
    omega
  | [a, b], h => by
    have ha : a < 256 := h a (by simp)
    have hb : b < 256 := h b (by simp)
    have h1 : a / 4 < 64 := by omega
    have h2 : a % 4 * 16 + b / 16 < 64 := by omega
    have h3 : b % 16 * 4 < 64 := by omega
    simp only [btoaBytes, atobBytes, if_neg (b64CharOfSextet_ne_pad _ h3),
      eq_self_iff_true, if_true,
      b64SextetOfChar_charOfSextet _ h1, b64SextetOfChar_charOfSextet _ h2,
      b64SextetOfChar_charOfSextet _ h3, List.cons.injEq, and_true]
    exact ⟨by omega, by omega⟩
  | a :: b :: c :: d :: rest, h => by
    have ha : a < 256 := h a (by simp)
    have hb : b < 256 := h b (by simp)
    have hc : c < 256 := h c (by simp)
    have h1 : a / 4 < 64 := by omega
    have h2 : a % 4 * 16 + b / 16 < 64 := by omega
    have h3 : b % 16 * 4 + c / 64 < 64 := by omega
    have h4 : c % 64 < 64 := by omega
    have ih := atobBytes_btoaBytes (d :: rest) (fun x hx => h x (by simp at hx ⊢; tauto))
    simp only [btoaBytes, atobBytes, if_neg (b64CharOfSextet_ne_pad _ h3),
      if_neg (b64CharOfSextet_ne_pad _ h4),
      b64SextetOfChar_charOfSextet _ h1, b64SextetOfChar_charOfSextet _ h2,
      b64SextetOfChar_charOfSextet _ h3, b64SextetOfChar_charOfSextet _ h4,
      List.cons.injEq]
    exact ⟨by omega, by omega, by omega, ih⟩
  | [a, b, c], h => by
    have ha : a < 256 := h a (by simp)
    have hb : b < 256 := h b (by simp)
    have hc : c < 256 := h c (by simp)
    have h1 : a / 4 < 64 := by omega
    have h2 : a % 4 * 16 + b / 16 < 64 := by omega
    have h3 : b % 16 * 4 + c / 64 < 64 := by omega
    have h4 : c % 64 < 64 := by omega
    simp only [btoaBytes, atobBytes, if_neg (b64CharOfSextet_ne_pad _ h3),
      if_neg (b64CharOfSextet_ne_pad _ h4),
      b64SextetOfChar_charOfSextet _ h1, b64SextetOfChar_charOfSextet _ h2,
      b64SextetOfChar_charOfSextet _ h3, b64SextetOfChar_charOfSextet _ h4,
      List.cons.injEq, and_true]
    exact ⟨by omega, by omega, by omega⟩

/-- After an upsert, looking the key up in the table yields exactly the row
the upsert reported as written. -/
theorem lookupToken_upsert (table : WalmartTokensTable) (p : UpsertPayload)
    (now : Int) (freshId : Str) :
    lookupToken (upsertWalmartToken table p now freshId).2 p.user_id =
      some (upsertWalmartToken table p now freshId).1 := by
  unfold upsertWalmartToken
  cases h : lookupToken table p.user_id with
  | none =>
    simp only
    unfold lookupToken at h ⊢
    rw [List.find?_append, h]
    simp
  | some old =>
    simp only
    unfold lookupToken at h ⊢
    induction table with
    | nil => simp at h
    | cons r rest ih =>
      by_cases hr : r.user_id = p.user_id
      · simp [hr]
      · rw [List.find?_cons_of_neg _ (by simp [hr])] at h
        simpa [hr] using ih h

/-- Field-level description of the row `storeToken` writes: tokens are passed
through verbatim and `expires_at` is recomputed from `now` and `expires_in`. -/
theorem storeToken_row_fields (userId : Str)
    (tokenData : WalmartTokenResponse) (sellerId : Option Str) (now : Int)
    (freshId : Str) (table : WalmartTokensTable) :
    (storeToken userId tokenData sellerId now freshId table).1.access_token =
        tokenData.access_token ∧
    (storeToken userId tokenData sellerId now freshId table).1.refresh_token =
        tokenData.refresh_token ∧
    (storeToken userId tokenData sellerId now freshId table).1.expires_at =
        now + tokenData.expires_in * 1000 := by
  unfold storeToken upsertWalmartToken
  cases lookupToken table userId <;> simp

/-- Claim C1 (evidence for the code bug): `storeToken` persists the
marketplace plaintext verbatim. For every input, the row written to
`walmart_tokens` carries `tokenData.access_token` and
`tokenData.refresh_token` unchanged — no call to
`EncryptionService.encryptToken` occurs anywhere in the service — and the
written row is what a subsequent lookup returns. This contradicts the claim
that every persisted token value is a ciphertext blob. -/
theorem storeToken_persists_plaintext (userId : Str)
    (tokenData : WalmartTokenResponse) (sellerId : Option Str) (now : Int)
    (freshId : Str) (table : WalmartTokensTable) :
    (storeToken userId tokenData sellerId now freshId table).1.access_token =
        tokenData.access_token ∧
    (storeToken userId tokenData sellerId now freshId table).1.refresh_token =
        tokenData.refresh_token ∧
    lookupToken (storeToken userId tokenData sellerId now freshId table).2
        userId = some (storeToken userId tokenData sellerId now freshId table).1 :=
  ⟨(storeToken_row_fields userId tokenData sellerId now freshId table).1,
   (storeToken_row_fields userId tokenData sellerId now freshId table).2.1,
   lookupToken_upsert table _ now freshId⟩

/-- Claim C2: the row written by `storeToken` always has
`expires_at = now + expires_in` seconds (milliseconds in this model), for
every caller input — the caller has no way to set `expires_at` to anything
else, since the upsert payload has no such field and the store's
`calculate_expires_at` trigger recomputes it on every insert and update. -/
theorem storeToken_expires_at_derived (userId : Str)
    (tokenData : WalmartTokenResponse) (sellerId : Option Str) (now : Int)
    (freshId : Str) (table : WalmartTokensTable) :
    (storeToken userId tokenData sellerId now freshId table).1.expires_at =
      now + tokenData.expires_in * 1000 :=
  (storeToken_row_fields userId tokenData sellerId now freshId table).2.2

/-- Claim C7: `isTokenExpiring(record, bufferMinutes)` is true iff
`expires_at - now ≤ bufferMinutes * 60` seconds (`* 1000` in milliseconds),
a buffer-inclusive comparison; in particular a record expiring in exactly
5 minutes is already expiring at buffer 5, and one expiring in 5 minutes and
1 second is not. -/
theorem isTokenExpiring_iff_and_boundary (token : WalmartTokenRecord)
    (bufferMinutes now : Int) :
    (isTokenExpiring token bufferMinutes now = true ↔
      token.expires_at - now ≤ bufferMinutes * 60 * 1000) ∧
    (token.expires_at = now + 5 * 60 * 1000 →
      isTokenExpiring token 5 now = true) ∧
    (token.expires_at = now + 5 * 60 * 1000 + 1000 →
      isTokenExpiring token 5 now = false) := by
  unfold isTokenExpiring
  refine ⟨by simp, fun h => by simp [h], fun h => by simp [h]; omega⟩

/-- Witness for C7 at a concrete record: with `expires_at = now + 5min`
(now = 0) the token counts as expiring at buffer 5; with one more second it
does not. -/
theorem isTokenExpiring_iff_and_boundary_witness :
    isTokenExpiring ⟨[105], [117], [84], none, [66], 3600, 300000, none,
      none, 0, 0⟩ 5 0 = true ∧
    isTokenExpiring ⟨[105], [117], [84], none, [66], 3600, 301000, none,
      none, 0, 0⟩ 5 0 = false := by
  constructor
  · exact (isTokenExpiring_iff_and_boundary
      ⟨[105], [117], [84], none, [66], 3600, 300000, none, none, 0, 0⟩
      5 0).2.1 (by decide)
  · exact (isTokenExpiring_iff_and_boundary
      ⟨[105], [117], [84], none, [66], 3600, 301000, none, none, 0, 0⟩
      5 0).2.2 (by decide)

/-- Claim C9: whenever a row exists for the user, `getConnectionStatus`
reports `isConnected = true`, even for a record whose `expires_at` is already
in the past — in that case it additionally reports `needsRefresh = true`, so
`isConnected` does not mean the stored access token is usable. -/
theorem getConnectionStatus_connected_despite_expiry (userId : Str)
    (now : Int) (table : WalmartTokensTable) (rec : WalmartTokenRecord)
    (hlook : lookupToken table userId = some rec) :
    (getConnectionStatus userId now table none).1.isConnected = true ∧
    (rec.expires_at < now →
      (getConnectionStatus userId now table none).1.needsRefresh = some true) := by
  unfold getConnectionStatus getStoredToken
  rw [hlook]
  refine ⟨rfl, fun h => ?_⟩
  have hx : isTokenExpiring rec 5 now = true := by
    simp only [isTokenExpiring, decide_eq_true_eq]
    omega
  simp [hx]

/-- Witness for C9: a record fully expired (expires_at 0, now 1000000) still
yields `isConnected = true`, with `needsRefresh = some true`. -/
theorem getConnectionStatus_connected_despite_expiry_witness :
    (getConnectionStatus [117] 1000000
      [⟨[105], [117], [84], none, [66], 3600, 0, none, none, 0, 0⟩]
      none).1.isConnected = true ∧
    (getConnectionStatus [117] 1000000
      [⟨[105], [117], [84], none, [66], 3600, 0, none, none, 0, 0⟩]
      none).1.needsRefresh = some true := by
  have h := getConnectionStatus_connected_despite_expiry [117] 1000000
    [⟨[105], [117], [84], none, [66], 3600, 0, none, none, 0, 0⟩]
    ⟨[105], [117], [84], none, [66], 3600, 0, none, none, 0, 0⟩ (by decide)
  exact ⟨h.1, h.2 (by decide)⟩

/-- Claim C10: `isTokenExpiring` is monotone in the buffer, and consequently
in every `getConnectionStatus` result with a record present,
`needsRefresh = true` (5-minute buffer) implies `isExpiring = true`
(60-minute buffer). -/
theorem isTokenExpiring_monotone :
    (∀ (token : WalmartTokenRecord) (b1 b2 now : Int), b1 ≤ b2 →
      isTokenExpiring token b1 now = true → isTokenExpiring token b2 now = true) ∧
    (∀ (userId : Str) (now : Int) (table : WalmartTokensTable)
        (rec : WalmartTokenRecord), lookupToken table userId = some rec →
      (getConnectionStatus userId now table none).1.needsRefresh = some true →
      (getConnectionStatus userId now table none).1.isExpiring = some true) := by
  have mono : ∀ (token : WalmartTokenRecord) (b1 b2 now : Int), b1 ≤ b2 →
      isTokenExpiring token b1 now = true → isTokenExpiring token b2 now = true := by
    intro token b1 b2 now hb h
    simp only [isTokenExpiring, decide_eq_true_eq] at h ⊢
    nlinarith
  refine ⟨mono, fun userId now table rec hlook hneed => ?_⟩
  unfold getConnectionStatus getStoredToken at hneed ⊢
  rw [hlook] at hneed ⊢
  simp only [Option.some.injEq] at hneed
  simpa using mono rec 5 60 now (by norm_num) hneed

/-- Witness for C10: a record expiring within 5 minutes is, by monotonicity,
also expiring within 60 minutes, and `getConnectionStatus` reports both. -/
theorem isTokenExpiring_monotone_witness :
    isTokenExpiring ⟨[105], [117], [84], none, [66], 3600, 100000, none,
      none, 0, 0⟩ 60 0 = true ∧
    (getConnectionStatus [117] 0
      [⟨[105], [117], [84], none, [66], 3600, 100000, none, none, 0, 0⟩]
      none).1.isExpiring = some true := by
  constructor
  · exact isTokenExpiring_monotone.1
      ⟨[105], [117], [84], none, [66], 3600, 100000, none, none, 0, 0⟩
      5 60 0 (by decide) (by decide)
  · exact isTokenExpiring_monotone.2 [117] 0
      [⟨[105], [117], [84], none, [66], 3600, 100000, none, none, 0, 0⟩]
      ⟨[105], [117], [84], none, [66], 3600, 100000, none, none, 0, 0⟩
      (by decide) (by decide)

/-- Claim C4: `getValidAccessToken` fails with `notConnectedError` when no
row exists, with `noRefreshTokenError` when the row is expiring under the
5-minute buffer and has no refresh token, and with `refreshFailedError` when
the row is expiring, has a refresh token, and the marketplace refresh call
fails — and the three failures are pairwise distinct. -/
theorem getValidAccessToken_failures (userId : Str) (now : Int)
    (freshId : Str) (table : WalmartTokensTable)
    (refreshResult : Except Str WalmartTokenResponse)
    (rec : WalmartTokenRecord) (e : Str) :
    (lookupToken table userId = none →
      getValidAccessToken userId now freshId table none refreshResult =
        .error .notConnectedError) ∧
    (lookupToken table userId = some rec →
      isTokenExpiring rec 5 now = true → rec.refresh_token = none →
      getValidAccessToken userId now freshId table none refreshResult =
        .error .noRefreshTokenError) ∧
    (∀ rt : Str, lookupToken table userId = some rec →
      isTokenExpiring rec 5 now = true → rec.refresh_token = some rt →
      getValidAccessToken userId now freshId table none (.error e) =
        .error .refreshFailedError) ∧
    (TokenError.notConnectedError ≠ TokenError.noRefreshTokenError ∧
     TokenError.notConnectedError ≠ TokenError.refreshFailedError ∧
     TokenError.noRefreshTokenError ≠ TokenError.refreshFailedError) := by
  refine ⟨fun hlook => ?_, fun hlook hexp hrt => ?_, fun rt hlook hexp hrt => ?_,
    by simp, by simp, by simp⟩
  · unfold getValidAccessToken getStoredToken
    rw [hlook]
  · unfold getValidAccessToken getStoredToken
    rw [hlook]
    simp [hexp, hrt]
  · unfold getValidAccessToken getStoredToken
    rw [hlook]
    simp [hexp, hrt]

/-- Witness for C4: the three failure modes at concrete inputs. -/
theorem getValidAccessToken_failures_witness :
    getValidAccessToken [117] 0 [106] [] none (.ok
      ⟨[84], [66], 3600, none, none⟩) = .error .notConnectedError ∧
    getValidAccessToken [117] 1000000 [106]
      [⟨[105], [117], [84], none, [66], 3600, 0, none, none, 0, 0⟩] none
      (.ok ⟨[84], [66], 3600, none, none⟩) = .error .noRefreshTokenError ∧
    getValidAccessToken [117] 1000000 [106]
      [⟨[105], [117], [84], some [82], [66], 3600, 0, none, none, 0, 0⟩] none
      (.error [101]) = .error .refreshFailedError := by
  refine ⟨(getValidAccessToken_failures [117] 0 [106] [] _
      ⟨[105], [117], [84], none, [66], 3600, 0, none, none, 0, 0⟩ []).1
      (by decide), ?_, ?_⟩
  · exact (getValidAccessToken_failures [117] 1000000 [106] _ _
      ⟨[105], [117], [84], none, [66], 3600, 0, none, none, 0, 0⟩ []).2.1
      (by decide) (by decide) (by decide)
  · exact (getValidAccessToken_failures [117] 1000000 [106] _
      (.error [101])
      ⟨[105], [117], [84], some [82], [66], 3600, 0, none, none, 0, 0⟩
      [101]).2.2.1 [82] (by decide) (by decide) (by decide)

/-- Claim C6: `getConnectionStatus` never throws and never mutates the store.
A failing store read yields `isConnected = false`; an absent row yields
`isConnected = false`; a present row yields `isConnected = true` with
`isExpiring` classified at the 60-minute buffer and `needsRefresh` at the
5-minute buffer. On every path the table comes back unchanged. -/
theorem getConnectionStatus_spec (userId : Str) (now : Int)
    (table : WalmartTokensTable) :
    (∀ e : Str, getConnectionStatus userId now table (some e) =
      ({ isConnected := false }, table)) ∧
    (lookupToken table userId = none →
      getConnectionStatus userId now table none =
        ({ isConnected := false }, table)) ∧
    (∀ rec : WalmartTokenRecord, lookupToken table userId = some rec →
      getConnectionStatus userId now table none =
        ({ isConnected := true, token := some rec,
           isExpiring := some (isTokenExpiring rec 60 now),
           needsRefresh := some (isTokenExpiring rec 5 now) }, table)) ∧
    (∀ storeError : Option Str,
      (getConnectionStatus userId now table storeError).2 = table) := by
  refine ⟨fun e => rfl, fun hlook => ?_, fun rec hlook => ?_, fun se => ?_⟩
  · unfold getConnectionStatus getStoredToken
    rw [hlook]
  · unfold getConnectionStatus getStoredToken
    rw [hlook]
  · unfold getConnectionStatus getStoredToken
    cases se with
    | none => cases lookupToken table userId <;> rfl
    | some e => rfl

/-- Witness for C6: a failing store read degrades to not-connected and the
table is untouched; a present record is classified with both buffers. -/
theorem getConnectionStatus_spec_witness :
    getConnectionStatus [117] 0
      [⟨[105], [117], [84], none, [66], 3600, 100000, none, none, 0, 0⟩]
      (some [101]) = ({ isConnected := false },
      [⟨[105], [117], [84], none, [66], 3600, 100000, none, none, 0, 0⟩]) ∧
    getConnectionStatus [117] 0
      [⟨[105], [117], [84], none, [66], 3600, 100000, none, none, 0, 0⟩]
      none = (⟨true,
        some ⟨[105], [117], [84], none, [66], 3600, 100000, none, none, 0, 0⟩,
        some true, some true⟩,
      [⟨[105], [117], [84], none, [66], 3600, 100000, none, none, 0, 0⟩]) := by
  constructor
  · exact (getConnectionStatus_spec [117] 0
      [⟨[105], [117], [84], none, [66], 3600, 100000, none, none, 0, 0⟩]).1
      [101]
  · have h := (getConnectionStatus_spec [117] 0
      [⟨[105], [117], [84], none, [66], 3600, 100000, none, none, 0, 0⟩]).2.2.1
      ⟨[105], [117], [84], none, [66], 3600, 100000, none, none, 0, 0⟩
      (by decide)
    rw [h]
    decide

/-- Claim C3 (evidence for the code bug): the actual behavior of
`getValidAccessToken`. On a non-expiring record it returns the stored
`access_token` value exactly as persisted — no `decryptToken` call exists on
this path, which together with C1 means plaintext in, plaintext out — with
`isRefreshed = false` (the source field name; the spec calls it
`wasRefreshed`) and the table unchanged. On an expiring record with a refresh
token and a successful marketplace refresh it writes the refresh response
through `storeToken` and returns the new access token (again undecrypted)
with `isRefreshed = true`; the table then holds the new row with the later
`expires_at`. -/
theorem getValidAccessToken_behavior (userId : Str) (now : Int)
    (freshId : Str) (table : WalmartTokensTable)
    (refreshResult : Except Str WalmartTokenResponse)
    (rec : WalmartTokenRecord)
    (hlook : lookupToken table userId = some rec) :
    (isTokenExpiring rec 5 now = false →
      getValidAccessToken userId now freshId table none refreshResult =
        .ok (⟨rec.access_token, false⟩, table)) ∧
    (∀ (rt : Str) (resp : WalmartTokenResponse),
      isTokenExpiring rec 5 now = true → rec.refresh_token = some rt →
      refreshResult = .ok resp →
      getValidAccessToken userId now freshId table none refreshResult =
        .ok (⟨(storeToken userId resp rec.seller_id now freshId table).1.access_token,
              true⟩,
             (storeToken userId resp rec.seller_id now freshId table).2) ∧
      (storeToken userId resp rec.seller_id now freshId table).1.access_token =
        resp.access_token ∧
      (storeToken userId resp rec.seller_id now freshId table).1.expires_at =
        now + resp.expires_in * 1000 ∧
      lookupToken (storeToken userId resp rec.seller_id now freshId table).2
          userId =
        some (storeToken userId resp rec.seller_id now freshId table).1) := by
  constructor
  · intro hexp
    unfold getValidAccessToken getStoredToken
    rw [hlook]
    simp [hexp]
  · intro rt resp hexp hrt hres
    subst hres
    refine ⟨?_, (storeToken_row_fields userId resp rec.seller_id now
        freshId table).1,
      (storeToken_row_fields userId resp rec.seller_id now freshId
        table).2.2,
      lookupToken_upsert table _ now freshId⟩
    unfold getValidAccessToken getStoredToken
    rw [hlook]
    simp [hexp, hrt]

/-- Witness for C3: on a fresh record the stored token comes back verbatim
with no refresh and no write; on an expired record with a refresh token and a
successful refresh, the response's token is written and returned. -/
theorem getValidAccessToken_behavior_witness :
    getValidAccessToken [117] 0 [106]
      [⟨[105], [117], [84, 49], some [82, 49], [66], 3600, 1000000, none,
        none, 0, 0⟩] none (.ok ⟨[84, 50], [66], 3600, some [82, 50], none⟩) =
      .ok (⟨[84, 49], false⟩,
        [⟨[105], [117], [84, 49], some [82, 49], [66], 3600, 1000000, none,
          none, 0, 0⟩]) ∧
    getValidAccessToken [117] 1000000 [106]
      [⟨[105], [117], [84, 49], some [82, 49], [66], 3600, 0, none,
        none, 0, 0⟩] none (.ok ⟨[84, 50], [66], 3600, some [82, 50], none⟩) =
      .ok (⟨[84, 50], true⟩,
        [⟨[105], [117], [84, 50], some [82, 50], [66], 3600, 4600000, none,
          none, 0, 1000000⟩]) := by
  constructor
  · exact (getValidAccessToken_behavior [117] 0 [106] _ _
      ⟨[105], [117], [84, 49], some [82, 49], [66], 3600, 1000000, none,
        none, 0, 0⟩ (by decide)).1 (by decide)
  · have h := ((getValidAccessToken_behavior [117] 1000000 [106]
      [⟨[105], [117], [84, 49], some [82, 49], [66], 3600, 0, none,
        none, 0, 0⟩] (.ok ⟨[84, 50], [66], 3600, some [82, 50], none⟩)
      ⟨[105], [117], [84, 49], some [82, 49], [66], 3600, 0, none,
        none, 0, 0⟩ (by decide)).2 [82, 49]
      ⟨[84, 50], [66], 3600, some [82, 50], none⟩
      (by decide) (by decide) rfl).1
    rw [h]
    rfl

/-- Claim C5: `ensureValidConnection` (modelled from the spec, absent from
src/) is a total function — no exception can escape — and on a marketplace
refresh failure it returns `isConnected = false` together with the
human-readable error string, rather than propagating the failure. -/
theorem ensureValidConnection_refresh_failure (userId : Str) (now : Int)
    (freshId : Str) (table : WalmartTokensTable)
    (rec : WalmartTokenRecord) (e : Str) (rt : Str)
    (hlook : lookupToken table userId = some rec)
    (hexp : isTokenExpiring rec 5 now = true)
    (hrt : rec.refresh_token = some rt) :
    (ensureValidConnection userId now freshId table none (.error e)).1.isConnected
        = false ∧
    (ensureValidConnection userId now freshId table none (.error e)).1.error
        = some e := by
  unfold ensureValidConnection getConnectionStatus getStoredToken
  rw [hlook]
  simp [hexp, hrt]

/-- Witness for C5: a concrete expired record with a refresh token and a
failing marketplace refresh yields not-connected with the error string. -/
theorem ensureValidConnection_refresh_failure_witness :
    (ensureValidConnection [117] 1000000 [106]
      [⟨[105], [117], [84], some [82], [66], 3600, 0, none, none, 0, 0⟩]
      none (.error [101, 114, 114])).1.isConnected = false ∧
    (ensureValidConnection [117] 1000000 [106]
      [⟨[105], [117], [84], some [82], [66], 3600, 0, none, none, 0, 0⟩]
      none (.error [101, 114, 114])).1.error = some [101, 114, 114] :=
  ensureValidConnection_refresh_failure [117] 1000000 [106]
    [⟨[105], [117], [84], some [82], [66], 3600, 0, none, none, 0, 0⟩]
    ⟨[105], [117], [84], some [82], [66], 3600, 0, none, none, 0, 0⟩
    [101, 114, 114] [82] (by decide) (by decide) (by decide)

/-- Claim C8: the cipher round-trip law. For every token and every 16-byte
initialization vector, `decryptToken (encryptToken token) = some token`,
given the contracts of the external platform collaborators: the AES-CBC
primitive inverts itself under the same key and IV and produces bytes, and
the text codec inverts itself on this token and produces bytes. The
repository-owned part — the base64 framing and the recovery of the IV from
the first 16 decoded bytes — is proved outright via `atobBytes_btoaBytes`. -/
theorem decryptToken_encryptToken (sc : SubtleAesCbc)
    (textEncode : Str → List Nat) (textDecode : List Nat → Str)
    (iv : List Nat) (token : Str)
    (hiv_len : iv.length = 16)
    (hiv_bytes : ∀ x ∈ iv, x < 256)
    (hsc_bytes : ∀ key i data, (∀ x ∈ data, x < 256) →
      ∀ x ∈ sc.encrypt key i data, x < 256)
    (hsc_inv : ∀ key i data, sc.decrypt key i (sc.encrypt key i data) =
      some data)
    (henc_bytes : ∀ s, ∀ x ∈ textEncode s, x < 256)
    (hcodec : textDecode (textEncode token) = token) :
    decryptToken sc textDecode (encryptToken sc textEncode iv token) =
      some token := by
  unfold encryptToken decryptToken arrayBufferToBase64 base64ToArrayBuffer
  have hbytes : ∀ x ∈ iv ++ sc.encrypt (atobBytes AES_KEY) iv
      (textEncode token), x < 256 := by
    intro x hx
    rcases List.mem_append.mp hx with h | h
    · exact hiv_bytes x h
    · exact hsc_bytes _ _ _ (henc_bytes token) x h
  simp only
  rw [atobBytes_btoaBytes _ hbytes]
  rw [show (16 : Nat) = iv.length from hiv_len.symm, List.take_left,
    List.drop_left, hsc_inv]
  simp [hcodec]

/-- Witness for C8 with concrete collaborators: the identity block cipher
(which satisfies the inversion and byte contracts) and the byte-wise text
codec, a 16-byte zero IV, and the token "hi". -/
theorem decryptToken_encryptToken_witness :
    decryptToken ⟨fun _ _ data => data, fun _ _ data => some data⟩
      (fun bytes => bytes)
      (encryptToken ⟨fun _ _ data => data, fun _ _ data => some data⟩
        (fun s => s.map (· % 256)) (List.replicate 16 0) [104, 105]) =
      some [104, 105] := by
  refine decryptToken_encryptToken
    ⟨fun _ _ data => data, fun _ _ data => some data⟩
    (fun s => s.map (· % 256)) (fun bytes => bytes)
    (List.replicate 16 0) [104, 105] (by decide) (by decide)
    (fun key i data h => h) (fun key i data => rfl) ?_ (by decide)
  intro s x hx
  rcases List.mem_map.mp hx with ⟨y, _, rfl⟩
  exact Nat.mod_lt y (by omega)

end SellerWalmart
